import Mathlib

/-!
Verification of the recurring-session scheduler of the `mcti` repository.

The scheduling core lives in `src/components/ScheduleManagement.tsx`,
`src/components/ApproveScheduleManagement.tsx` and the unnamed variant of the
schedule-management view (`src/unnamed/part_001`).  This file gives a shallow
embedding of that core:

* `Schedule` mirrors the persisted `Schedule` interface (times are the
  original `"HH:MM"` strings, days the stored string array);
* `timeToMinutes` mirrors the helper of the same name;
* `hasConflict` mirrors the create-path conflict detector;
* `updateConflictScan` mirrors the inline conflict loop of
  `handleUpdateSchedule` (which runs over `otherSchedules`, i.e. the session
  set with the edited id filtered out);
* `handleCreateSchedule` mirrors the per-day fan-out creation flow of
  `src/unnamed/part_001` (storage writes are abstracted by an `addOk`
  oracle telling whether the i-th `addDoc` call succeeds; the distinct
  `Swal.fire` alerts are abstracted by the `Msg` inductive);
* `handleUpdateSchedule` mirrors the update flow of the schedule-management
  view, `approveUpdateSchedule` the one of `ApproveScheduleManagement`;
* `getEventsFromSchedule` mirrors the FullCalendar occurrence
  materializer; the wall clock read by `moment()` is made explicit as a
  `now` parameter counted in minutes from an epoch placed on a Monday
  00:00, so `startOf('isoWeek')` becomes flooring to a multiple of
  `7*1440 = 10080` minutes.
-/

/-- Mirrors the `Schedule` interface: `id` is optional (absent before the
storage collaborator assigns one), `days` is the stored array of weekday
names, `startTime`/`endTime` are `"HH:MM"` strings. -/
structure Schedule where
  id : Option String
  subjectId : String
  teacherId : String
  room : String
  days : List String
  startTime : String
  endTime : String
  departmentId : String
  createdAt : String
  approved : Option Bool
  deriving DecidableEq, Repr

/-- Mirrors the `newSchedule` form state: the candidate submitted to
creation/conflict checking, before `departmentId`/`createdAt` are attached. -/
structure NewSchedule where
  subjectId : String
  teacherId : String
  room : String
  days : List String
  startTime : String
  endTime : String
  deriving DecidableEq, Repr

/-- Mirrors the `SubjectData` interface (the fields the scheduling core
reads). -/
structure SubjectData where
  id : String
  subjectCode : String
  subjectName : String
  departmentId : String
  deriving DecidableEq, Repr

/-- Splits a character list at every `':'`, mirroring
`String.prototype.split(':')` on the string's characters. -/
def splitColonAux : List Char → List Char → List (List Char)
  | [], acc => [acc.reverse]
  | c :: rest, acc =>
    if c = ':' then acc.reverse :: splitColonAux rest []
    else splitColonAux rest (c :: acc)

/-- Mirrors JavaScript `s.split(':')`. -/
def splitColon (s : String) : List String :=
  (splitColonAux s.data []).map List.asString

/-- Reads a decimal digit string, mirroring `Number`/`parseInt` on the
all-digit inputs produced by the time pickers; `none` on empty or non-digit
input (where JavaScript would produce `NaN`). -/
def parseNatAux : List Char → Nat → Option Nat
  | [], acc => some acc
  | c :: rest, acc =>
    if c.isDigit then parseNatAux rest (acc * 10 + (c.toNat - 48))
    else none

/-- Numeric value of a digit string, `none` when not an all-digit string. -/
def parseNat (s : String) : Option Nat :=
  match s.data with
  | [] => none
  | cs => parseNatAux cs 0

/-- Mirrors `timeToMinutes`: split on `":"`, convert both parts to numbers,
return `hours * 60 + minutes`. -/
def timeToMinutes (timeStr : String) : Nat :=
  match (splitColon timeStr).map (fun t => (parseNat t).getD 0) with
  | [hours, minutes] => hours * 60 + minutes
  | _ => 0

/-- The inline half-open overlap test used throughout the source:
`newStart < existingEnd && newEnd > existingStart`. -/
def overlapsMin (newStart newEnd existingStart existingEnd : Nat) : Bool :=
  decide (newStart < existingEnd) && decide (newEnd > existingStart)

/-- Mirrors `hasConflict` (create path, identical in
`ScheduleManagement.tsx` and `src/unnamed/part_001`): for each selected day,
for each existing schedule containing that day, a teacher match with time
overlap or a room match with time overlap yields `true`. -/
def hasConflict (schedules : List Schedule) (newSch : NewSchedule) : Bool :=
  let newStart := timeToMinutes newSch.startTime
  let newEnd := timeToMinutes newSch.endTime
  newSch.days.any (fun day =>
    schedules.any (fun sch =>
      sch.days.contains day &&
        ((sch.teacherId == newSch.teacherId &&
            overlapsMin newStart newEnd
              (timeToMinutes sch.startTime) (timeToMinutes sch.endTime)) ||
         (sch.room == newSch.room &&
            overlapsMin newStart newEnd
              (timeToMinutes sch.startTime) (timeToMinutes sch.endTime)))))

/-- One shared day with overlapping windows and a matching teacher or room:
the per-pair conflict condition of the source, as a proposition. -/
def pairConflict (sch : Schedule) (teacherId room : String)
    (newStart newEnd : Nat) (days : List String) : Prop :=
  (∃ day ∈ days, day ∈ sch.days) ∧
    overlapsMin newStart newEnd
      (timeToMinutes sch.startTime) (timeToMinutes sch.endTime) = true ∧
    (sch.teacherId = teacherId ∨ sch.room = room)

instance (sch : Schedule) (t r : String) (ns ne : Nat) (ds : List String) :
    Decidable (pairConflict sch t r ns ne ds) := by
  unfold pairConflict; infer_instance

/-- Bridge between the boolean `List.contains` used by the embedded code and
list membership. -/
lemma contains_iff_mem (l : List String) (a : String) :
    l.contains a = true ↔ a ∈ l :=
  List.elem_iff

/-- The distinct `Swal.fire` alerts fired by the scheduling flows, one
constructor per distinct alert of the source (the per-day alerts carry the
day name interpolated into the original message text). -/
inductive Msg where
  /-- Alert text: Please fill all required fields. -/
  | warnFillFields
  /-- Alert text: Start time must be before end time. -/
  | warnStartBeforeEnd
  /-- Alert text: Schedule conflict detected (teacher or room already booked). -/
  | warnConflictDetected
  /-- Alert text: Selected subject not found. -/
  | errSubjectNotFound
  /-- Alert text: Conflict detected for day. Skipping this day. -/
  | warnDaySkipped (day : String)
  /-- Alert text: Failed to add schedule for day. -/
  | errAddFailed (day : String)
  /-- Alert text: Schedule(s) added successfully. -/
  | successAdded
  /-- Alert text: Teacher conflict detected. -/
  | warnTeacherConflict
  /-- Alert text: Room conflict detected. -/
  | warnRoomConflict
  deriving DecidableEq, Repr

/-- Mirrors the inline conflict loop of `handleUpdateSchedule`: iterate the
edited days, then the (already filtered) other schedules; the first teacher
match with overlap aborts with the teacher-conflict alert, else the first
room match with overlap aborts with the room-conflict alert. -/
def updateConflictScan (otherSchedules : List Schedule) (teacherId room : String)
    (newStart newEnd : Nat) (days : List String) : Option Msg :=
  days.findSome? (fun day =>
    otherSchedules.findSome? (fun sch =>
      if !(sch.days.contains day) then none
      else if sch.teacherId == teacherId &&
          overlapsMin newStart newEnd
            (timeToMinutes sch.startTime) (timeToMinutes sch.endTime) then
        some Msg.warnTeacherConflict
      else if sch.room == room &&
          overlapsMin newStart newEnd
            (timeToMinutes sch.startTime) (timeToMinutes sch.endTime) then
        some Msg.warnRoomConflict
      else none))

/-- The six fields written by `updateDoc` in the schedule-management
update path. -/
structure SchedUpdateFields where
  subjectId : String
  teacherId : String
  room : String
  days : List String
  startTime : String
  endTime : String
  deriving DecidableEq, Repr

/-- The five fields written by `updateDoc` in the
`ApproveScheduleManagement` update path (no `teacherId`). -/
structure ApproveUpdateFields where
  subjectId : String
  room : String
  days : List String
  startTime : String
  endTime : String
  deriving DecidableEq, Repr

/-- Outcome of the schedule-management update flow: silent early return,
a warning alert, or an `updateDoc` call on the given document id with the
given field map. -/
inductive UpdateOutcome where
  | noOp
  | warn (m : Msg)
  | persist (id : String) (fields : SchedUpdateFields)
  deriving DecidableEq, Repr

/-- Outcome of the `ApproveScheduleManagement` update flow. -/
inductive ApproveOutcome where
  | noOp
  | warn (m : Msg)
  | persist (id : String) (fields : ApproveUpdateFields)
  deriving DecidableEq, Repr

/-- Mirrors `handleUpdateSchedule` of the schedule-management view
(identical in `ScheduleManagement.tsx` and `src/unnamed/part_001`):
field-completeness check, start-before-end check, then the inline conflict
loop over `otherSchedules = schedules.filter(sch => sch.id !== editSchedule.id)`,
and finally `updateDoc` with exactly the six merged fields. -/
def handleUpdateSchedule (schedules : List Schedule) (editSchedule : Schedule) :
    UpdateOutcome :=
  match editSchedule.id with
  | none => UpdateOutcome.noOp
  | some eid =>
    if editSchedule.subjectId == "" || editSchedule.teacherId == "" ||
        editSchedule.room == "" || editSchedule.days.isEmpty ||
        editSchedule.startTime == "" || editSchedule.endTime == "" then
      UpdateOutcome.warn Msg.warnFillFields
    else if timeToMinutes editSchedule.startTime ≥ timeToMinutes editSchedule.endTime then
      UpdateOutcome.warn Msg.warnStartBeforeEnd
    else
      let otherSchedules := schedules.filter (fun sch => sch.id != some eid)
      match updateConflictScan otherSchedules editSchedule.teacherId
          editSchedule.room (timeToMinutes editSchedule.startTime)
          (timeToMinutes editSchedule.endTime) editSchedule.days with
      | some m => UpdateOutcome.warn m
      | none =>
        UpdateOutcome.persist eid
          { subjectId := editSchedule.subjectId
            teacherId := editSchedule.teacherId
            room := editSchedule.room
            days := editSchedule.days
            startTime := editSchedule.startTime
            endTime := editSchedule.endTime }

/-- Mirrors `handleUpdateSchedule` of `ApproveScheduleManagement.tsx`: only
a field-completeness check (no teacher field, no time-order check, no
conflict re-validation), then `updateDoc` with the five fields. -/
def approveUpdateSchedule (editSchedule : Schedule) : ApproveOutcome :=
  match editSchedule.id with
  | none => ApproveOutcome.noOp
  | some eid =>
    if editSchedule.subjectId == "" || editSchedule.room == "" ||
        editSchedule.days.isEmpty || editSchedule.startTime == "" ||
        editSchedule.endTime == "" then
      ApproveOutcome.warn Msg.warnFillFields
    else
      ApproveOutcome.persist eid
        { subjectId := editSchedule.subjectId
          room := editSchedule.room
          days := editSchedule.days
          startTime := editSchedule.startTime
          endTime := editSchedule.endTime }

/-- Firestore `updateDoc` merge semantics for the schedule-management field
map: the listed fields are replaced, every other field of the stored record
is left untouched. -/
def applyScheduleUpdate (f : SchedUpdateFields) (old : Schedule) : Schedule :=
  { old with
    subjectId := f.subjectId
    teacherId := f.teacherId
    room := f.room
    days := f.days
    startTime := f.startTime
    endTime := f.endTime }

/-- Firestore `updateDoc` merge semantics for the approve-path field map. -/
def applyApproveUpdate (f : ApproveUpdateFields) (old : Schedule) : Schedule :=
  { old with
    subjectId := f.subjectId
    room := f.room
    days := f.days
    startTime := f.startTime
    endTime := f.endTime }

/-- Mirrors the per-day `for (const day of days)` loop of
`handleCreateSchedule` in `src/unnamed/part_001`: each day is re-checked
against the same `schedules` snapshot as a singleton-day entry; a conflict
fires the skip alert and continues; otherwise `addDoc` is attempted (the
`addOk` oracle says whether the k-th attempted write succeeds), a failure
fires the per-day error alert.  Returns the fired alerts and the persisted
documents, in order. -/
def createDaysLoop (schedules : List Schedule) (newSchedule : NewSchedule)
    (subj : SubjectData) (addOk : Nat → Bool) (createdAt : String) :
    List String → Nat → List Msg × List Schedule
  | [], _ => ([], [])
  | day :: rest, k =>
    let scheduleEntry : NewSchedule := { newSchedule with days := [day] }
    if hasConflict schedules scheduleEntry then
      let r := createDaysLoop schedules newSchedule subj addOk createdAt rest k
      (Msg.warnDaySkipped day :: r.1, r.2)
    else if addOk k then
      let r := createDaysLoop schedules newSchedule subj addOk createdAt rest (k + 1)
      (r.1,
        { id := none
          subjectId := newSchedule.subjectId
          teacherId := newSchedule.teacherId
          room := newSchedule.room
          days := [day]
          startTime := newSchedule.startTime
          endTime := newSchedule.endTime
          departmentId := subj.departmentId
          createdAt := createdAt
          approved := none } :: r.2)
    else
      let r := createDaysLoop schedules newSchedule subj addOk createdAt rest (k + 1)
      (Msg.errAddFailed day :: r.1, r.2)

/-- Mirrors `handleCreateSchedule` of `src/unnamed/part_001`: required-field
check, start-before-end check, whole-candidate `hasConflict` check, subject
lookup, then the per-day fan-out loop; the success alert is fired
unconditionally after the loop.  Returns the fired alerts and the persisted
documents. -/
def handleCreateSchedule (schedules : List Schedule) (subjects : List SubjectData)
    (newSchedule : NewSchedule) (addOk : Nat → Bool) (createdAt : String) :
    List Msg × List Schedule :=
  if newSchedule.subjectId == "" || newSchedule.teacherId == "" ||
      newSchedule.room == "" || newSchedule.days.isEmpty ||
      newSchedule.startTime == "" || newSchedule.endTime == "" then
    ([Msg.warnFillFields], [])
  else if timeToMinutes newSchedule.startTime ≥ timeToMinutes newSchedule.endTime then
    ([Msg.warnStartBeforeEnd], [])
  else if hasConflict schedules newSchedule then
    ([Msg.warnConflictDetected], [])
  else
    match subjects.find? (fun s => s.id == newSchedule.subjectId) with
    | none => ([Msg.errSubjectNotFound], [])
    | some subj =>
      let r := createDaysLoop schedules newSchedule subj addOk createdAt
        newSchedule.days 0
      (r.1 ++ [Msg.successAdded], r.2)

/-- Mirrors the `daysOfWeek` constant. -/
def daysOfWeek : List String :=
  ["Monday", "Tuesday", "Wednesday", "Thursday", "Friday", "Saturday", "Sunday"]

/-- JavaScript `Array.prototype.indexOf`: zero-based index of the first
occurrence, `-1` when absent. -/
def indexOfJS : List String → String → Int
  | [], _ => -1
  | d :: rest, day =>
    if d = day then 0
    else
      let r := indexOfJS rest day
      if r = -1 then -1 else r + 1

/-- Mirrors `parseInt(s.split(':')[i], 10)` for the well-formed `"HH:MM"`
strings the view stores. -/
def parsePart (s : String) (i : Nat) : Nat :=
  (parseNat ((splitColon s).getD i "")).getD 0

/-- The FullCalendar event object built by `getEventsFromSchedule` (the
fields the core computes; `extendedProps` only echoes the input record). -/
structure CalEvent where
  id : Option String
  title : String
  start : Int
  «end» : Int
  deriving DecidableEq, Repr

/-- Mirrors `moment().startOf('isoWeek')`: with the clock counted in minutes
from an epoch lying on a Monday 00:00, the start of the current ISO week is
the clock floored to a multiple of `7 * 1440 = 10080` minutes. -/
def weekStartOf (now : Nat) : Int :=
  ((now / 10080) * 10080 : Nat)

/-- Mirrors `getEventsFromSchedule` (identical in `ScheduleManagement.tsx`
and `src/unnamed/part_001`): one event per entry of `sch.days`, in stored
array order; each event sits at the current week's Monday plus the
`daysOfWeek` index of its day, with the parsed hour/minute of the stored
time strings, and carries `sch.id`.  The `moment()` clock read is the
explicit `now` parameter (minutes since a Monday-00:00 epoch). -/
def getEventsFromSchedule (now : Nat) (sch : Schedule) : List CalEvent :=
  sch.days.map (fun day =>
    let weekStart : Int := weekStartOf now
    let dayIndex : Int := indexOfJS daysOfWeek day
    let eventStart : Int :=
      weekStart + dayIndex * 1440 +
        (parsePart sch.startTime 0 * 60 + parsePart sch.startTime 1 : Nat)
    let eventEnd : Int :=
      weekStart + dayIndex * 1440 +
        (parsePart sch.endTime 0 * 60 + parsePart sch.endTime 1 : Nat)
    { id := sch.id
      title := "Sub: " ++ sch.subjectId ++ " | Room: " ++ sch.room
      start := eventStart
      «end» := eventEnd })

/-- Characterization of `hasConflict`: it is `true` exactly when some
existing schedule shares a day with the candidate, overlaps it in time, and
matches its teacher or its room. -/
lemma hasConflict_iff (schedules : List Schedule) (newSch : NewSchedule) :
    hasConflict schedules newSch = true ↔
      ∃ sch ∈ schedules,
        pairConflict sch newSch.teacherId newSch.room
          (timeToMinutes newSch.startTime) (timeToMinutes newSch.endTime)
          newSch.days := by
  unfold hasConflict pairConflict
  simp only [List.any_eq_true, Bool.and_eq_true, Bool.or_eq_true, beq_iff_eq,
    contains_iff_mem, decide_eq_true_eq]
  constructor
  · rintro ⟨day, hday, sch, hsch, hmem, hrest⟩
    refine ⟨sch, hsch, ⟨day, hday, hmem⟩, ?_, ?_⟩
    · rcases hrest with ⟨_, hov⟩ | ⟨_, hov⟩ <;> exact hov
    · rcases hrest with ⟨ht, _⟩ | ⟨hr, _⟩
      · exact Or.inl ht
      · exact Or.inr hr
  · rintro ⟨sch, hsch, ⟨day, hday, hmem⟩, hov, hmatch⟩
    refine ⟨day, hday, sch, hsch, hmem, ?_⟩
    rcases hmatch with ht | hr
    · exact Or.inl ⟨ht, hov⟩
    · exact Or.inr ⟨hr, hov⟩

/-- One cell of the update-path conflict loop: `none` exactly when the pair
(candidate day, existing schedule) raises neither a teacher nor a room
conflict. -/
lemma scanCell_eq_none_iff (sch : Schedule) (t r : String) (ns ne : Nat)
    (day : String) :
    (if !(sch.days.contains day) then (none : Option Msg)
     else if sch.teacherId == t &&
         overlapsMin ns ne (timeToMinutes sch.startTime) (timeToMinutes sch.endTime) then
       some Msg.warnTeacherConflict
     else if sch.room == r &&
         overlapsMin ns ne (timeToMinutes sch.startTime) (timeToMinutes sch.endTime) then
       some Msg.warnRoomConflict
     else none) = none ↔
      ¬(day ∈ sch.days ∧
          overlapsMin ns ne (timeToMinutes sch.startTime) (timeToMinutes sch.endTime)
            = true ∧
          (sch.teacherId = t ∨ sch.room = r)) := by
  by_cases hmem : day ∈ sch.days
  · have hc : sch.days.contains day = true := (contains_iff_mem _ _).mpr hmem
    by_cases hov : overlapsMin ns ne (timeToMinutes sch.startTime)
        (timeToMinutes sch.endTime) = true
    · by_cases ht : sch.teacherId = t
      · simp [hc, ht, hov, hmem]
      · by_cases hr : sch.room = r
        · simp [hc, ht, hr, hov, hmem]
        · simp [hc, ht, hr, hov, hmem]
    · have hov' : overlapsMin ns ne (timeToMinutes sch.startTime)
          (timeToMinutes sch.endTime) = false := by
        simpa using hov
      simp [hc, hov', hmem]
  · have hc : sch.days.contains day = false := by
      rw [← Bool.not_eq_true]
      exact fun h => hmem ((contains_iff_mem _ _).mp h)
    simp [hc, hmem]

/-- The update-path conflict loop reports nothing exactly when no schedule in
the (already filtered) comparison set pair-conflicts with the candidate. -/
lemma updateConflictScan_eq_none_iff (others : List Schedule) (t r : String)
    (ns ne : Nat) (days : List String) :
    updateConflictScan others t r ns ne days = none ↔
      ∀ sch ∈ others, ¬ pairConflict sch t r ns ne days := by
  unfold updateConflictScan
  simp only [List.findSome?_eq_none_iff, scanCell_eq_none_iff, pairConflict]
  constructor
  · rintro h sch hsch ⟨⟨day, hday, hmem⟩, hov, hmatch⟩
    exact h day hday sch hsch ⟨hmem, hov, hmatch⟩
  · rintro h day hday sch hsch ⟨hmem, hov, hmatch⟩
    exact h sch hsch ⟨⟨day, hday, hmem⟩, hov, hmatch⟩

/-- The multi-day conflict check is the disjunction of the singleton-day
checks: only the `days` field drives the outer loop. -/
lemma hasConflict_days_any (schedules : List Schedule) (c : NewSchedule) :
    hasConflict schedules c =
      c.days.any (fun d => hasConflict schedules { c with days := [d] }) := by
  unfold hasConflict
  simp [List.any_cons]

/-- When every remaining day passes its singleton-day conflict check, the
creation loop never fires the skip alert. -/
lemma createDaysLoop_no_skip (schedules : List Schedule) (c : NewSchedule)
    (subj : SubjectData) (addOk : Nat → Bool) (createdAt : String) :
    ∀ (ds : List String) (k : Nat),
      (∀ d ∈ ds, hasConflict schedules { c with days := [d] } = false) →
      ∀ day, Msg.warnDaySkipped day ∉
        (createDaysLoop schedules c subj addOk createdAt ds k).1 := by
  intro ds
  induction ds with
  | nil => intro k _ day; simp [createDaysLoop]
  | cons d rest ih =>
    intro k h day
    have hd : hasConflict schedules { c with days := [d] } = false :=
      h d (List.mem_cons_self d rest)
    have hrest : ∀ x ∈ rest, hasConflict schedules { c with days := [x] } = false :=
      fun x hx => h x (List.mem_cons_of_mem d hx)
    simp only [createDaysLoop, hd, Bool.false_eq_true, if_false]
    by_cases ha : addOk k
    · simpa [ha] using ih (k + 1) hrest day
    · simpa [ha] using ih (k + 1) hrest day

/-- Bridge between the per-component `parseInt` parsing of the materializer
and `timeToMinutes`, valid whenever the time string has exactly one colon. -/
lemma parsePart_eq_timeToMinutes (s : String) (h : (splitColon s).length = 2) :
    parsePart s 0 * 60 + parsePart s 1 = timeToMinutes s := by
  unfold parsePart timeToMinutes
  match hs : splitColon s with
  | [a, b] => simp [hs]
  | [] => rw [hs] at h; simp at h
  | [a] => rw [hs] at h; simp at h
  | a :: b :: c :: rest => rw [hs] at h; simp at h

/-- C1: conflict detection reports a conflict if and only if some existing
session (excluding the `excludeId` one, when exclusion is applied) shares a
weekday with the candidate, overlaps it under the half-open test
`candidate.start < existing.end && candidate.end > existing.start`, and
matches the candidate's instructor or its room, the two matches being
independently OR'd.  First conjunct: the create-path `hasConflict`; second
conjunct: the update-path scan over the id-filtered session set. -/
theorem C1_conflict_detection_characterization :
    ∀ (schedules : List Schedule) (c : NewSchedule),
      (hasConflict schedules c = true ↔
        ∃ sch ∈ schedules,
          (∃ day ∈ c.days, day ∈ sch.days) ∧
          overlapsMin (timeToMinutes c.startTime) (timeToMinutes c.endTime)
            (timeToMinutes sch.startTime) (timeToMinutes sch.endTime) = true ∧
          (sch.teacherId = c.teacherId ∨ sch.room = c.room)) ∧
      (∀ (xid : String),
        updateConflictScan (schedules.filter (fun sch => sch.id != some xid))
            c.teacherId c.room (timeToMinutes c.startTime)
            (timeToMinutes c.endTime) c.days ≠ none ↔
          ∃ sch ∈ schedules, sch.id ≠ some xid ∧
            (∃ day ∈ c.days, day ∈ sch.days) ∧
            overlapsMin (timeToMinutes c.startTime) (timeToMinutes c.endTime)
              (timeToMinutes sch.startTime) (timeToMinutes sch.endTime) = true ∧
            (sch.teacherId = c.teacherId ∨ sch.room = c.room)) := by
  intro schedules c
  constructor
  · simpa [pairConflict] using hasConflict_iff schedules c
  · intro xid
    rw [Ne, updateConflictScan_eq_none_iff]
    constructor
    · intro h
      push_neg at h
      obtain ⟨sch, hmem, hpair⟩ := h
      obtain ⟨hin, hneq⟩ := List.mem_filter.mp hmem
      refine ⟨sch, hin, bne_iff_ne.mp hneq, ?_⟩
      simpa [pairConflict] using hpair
    · rintro ⟨sch, hin, hneq, hpair⟩
      push_neg
      exact ⟨sch, List.mem_filter.mpr ⟨hin, bne_iff_ne.mpr hneq⟩,
        by simpa [pairConflict] using hpair⟩

/-- C6: the half-open overlap test is symmetric, intervals touching at an
endpoint do not overlap, and (Scenario B) a candidate touching an existing
session's window on a shared day in the same room is not a conflict. -/
theorem C6_overlap_symmetric_touching_not_conflict :
    ∀ (aS aE bS bE : Nat), aS < aE → bS < bE →
      overlapsMin aS aE bS bE = overlapsMin bS bE aS aE ∧
      ((aE = bS ∨ bE = aS) → overlapsMin aS aE bS bE = false) ∧
      hasConflict
        [{ id := some "s1", subjectId := "SUB1", teacherId := "T1",
           room := "R1", days := ["Monday"], startTime := "08:00",
           endTime := "09:00", departmentId := "D1", createdAt := "t0",
           approved := none }]
        { subjectId := "SUB2", teacherId := "T2", room := "R1",
          days := ["Monday"], startTime := "09:00", endTime := "10:00" }
        = false := by
  intro aS aE bS bE h1 h2
  refine ⟨?_, ?_, by decide⟩
  · rw [Bool.eq_iff_iff]
    simp only [overlapsMin, Bool.and_eq_true, decide_eq_true_eq, gt_iff_lt]
    constructor
    · rintro ⟨u, v⟩; exact ⟨v, u⟩
    · rintro ⟨u, v⟩; exact ⟨v, u⟩
  · intro h
    refine Bool.eq_false_iff.mpr (fun hc => ?_)
    simp only [overlapsMin, Bool.and_eq_true, decide_eq_true_eq, gt_iff_lt] at hc
    rcases h with h | h <;> omega

/-- Witness for C6 at the Scenario B windows 08:00-09:00 and 09:00-10:00
(in minutes: 480-540 and 540-600). -/
theorem C6_witness :
    (overlapsMin 480 540 540 600 = overlapsMin 540 600 480 540) ∧
    ((540 = 540 ∨ 600 = 480) → overlapsMin 480 540 540 600 = false) ∧
    hasConflict
      [{ id := some "s1", subjectId := "SUB1", teacherId := "T1",
         room := "R1", days := ["Monday"], startTime := "08:00",
         endTime := "09:00", departmentId := "D1", createdAt := "t0",
         approved := none }]
      { subjectId := "SUB2", teacherId := "T2", room := "R1",
        days := ["Monday"], startTime := "09:00", endTime := "10:00" }
      = false :=
  C6_overlap_symmetric_touching_not_conflict 480 540 540 600
    (by decide) (by decide)

/-- C7: a candidate whose day set is disjoint from every existing session's
day set is conflict-free, independent of time windows, teacher or room. -/
theorem C7_disjoint_days_conflict_free :
    ∀ (schedules : List Schedule) (c : NewSchedule),
      (∀ d ∈ c.days, ∀ sch ∈ schedules, d ∉ sch.days) →
      hasConflict schedules c = false := by
  intro schedules c h
  refine Bool.eq_false_iff.mpr (fun hc => ?_)
  obtain ⟨sch, hmem, hpair⟩ := (hasConflict_iff schedules c).mp hc
  unfold pairConflict at hpair
  obtain ⟨⟨day, hday, hd⟩, -, -⟩ := hpair
  exact h day hday sch hmem hd

/-- Witness for C7: a Tuesday-only candidate against a Monday-only session
with the same teacher, same room and the very same time window. -/
theorem C7_witness :
    hasConflict
      [{ id := some "s1", subjectId := "SUB1", teacherId := "T1",
         room := "R1", days := ["Monday"], startTime := "08:00",
         endTime := "09:00", departmentId := "D1", createdAt := "t0",
         approved := none }]
      { subjectId := "SUB1", teacherId := "T1", room := "R1",
        days := ["Tuesday"], startTime := "08:00", endTime := "09:00" }
      = false :=
  C7_disjoint_days_conflict_free _ _ (by decide)

/-- C8: updating a persisted session to its unchanged values succeeds: the
update path compares only against sessions whose id differs from the edited
one, so the session's own prior version (any stored entry carrying its id)
never produces a conflict record, and when no *other* session conflicts the
update persists. -/
theorem C8_unchanged_update_no_self_conflict :
    ∀ (schedules : List Schedule) (X : Schedule) (xid : String),
      X.id = some xid →
      (X.subjectId == "" || X.teacherId == "" || X.room == "" ||
        X.days.isEmpty || X.startTime == "" || X.endTime == "") = false →
      timeToMinutes X.startTime < timeToMinutes X.endTime →
      (∀ sch ∈ schedules, sch.id ≠ some xid →
        ¬ pairConflict sch X.teacherId X.room (timeToMinutes X.startTime)
          (timeToMinutes X.endTime) X.days) →
      handleUpdateSchedule schedules X =
        UpdateOutcome.persist xid
          { subjectId := X.subjectId, teacherId := X.teacherId,
            room := X.room, days := X.days, startTime := X.startTime,
            endTime := X.endTime } := by
  intro schedules X xid hid hfields htime hother
  have hscan : updateConflictScan
      (schedules.filter (fun sch => sch.id != some xid)) X.teacherId X.room
      (timeToMinutes X.startTime) (timeToMinutes X.endTime) X.days = none := by
    refine (updateConflictScan_eq_none_iff _ _ _ _ _ _).mpr (fun sch hmem => ?_)
    obtain ⟨hin, hne⟩ := List.mem_filter.mp hmem
    exact hother sch hin (bne_iff_ne.mp hne)
  have hge : ¬ timeToMinutes X.startTime ≥ timeToMinutes X.endTime := by omega
  unfold handleUpdateSchedule
  rw [hid]
  simp only [hfields, Bool.false_eq_true, if_false, hge, if_true, hscan]

/-- Witness for C8: a single stored session updated to its own unchanged
values; the comparison set contains only the session itself (which would
self-overlap were it not excluded), and the update persists. -/
theorem C8_witness :
    handleUpdateSchedule
      [{ id := some "x", subjectId := "SUB1", teacherId := "T1",
         room := "R1", days := ["Monday"], startTime := "08:00",
         endTime := "09:00", departmentId := "D1", createdAt := "t0",
         approved := none }]
      { id := some "x", subjectId := "SUB1", teacherId := "T1",
        room := "R1", days := ["Monday"], startTime := "08:00",
        endTime := "09:00", departmentId := "D1", createdAt := "t0",
        approved := none } =
      UpdateOutcome.persist "x"
        { subjectId := "SUB1", teacherId := "T1", room := "R1",
          days := ["Monday"], startTime := "08:00", endTime := "09:00" } :=
  C8_unchanged_update_no_self_conflict _ _ "x" rfl (by decide) (by decide)
    (by decide)

/-- C4 (amended): the schedule-management update path persists only when the
conflict re-validation over all other sessions finds no conflict; the claim
as stated fails because the `ApproveScheduleManagement` update path persists
with no conflict re-validation at all (see the counterexample). -/
theorem C4_management_update_revalidates :
    ∀ (schedules : List Schedule) (e : Schedule) (eid : String)
      (f : SchedUpdateFields),
      handleUpdateSchedule schedules e = UpdateOutcome.persist eid f →
      updateConflictScan (schedules.filter (fun sch => sch.id != some eid))
        e.teacherId e.room (timeToMinutes e.startTime)
        (timeToMinutes e.endTime) e.days = none := by
  intro schedules e eid f h
  unfold handleUpdateSchedule at h
  cases hid : e.id with
  | none =>
    simp only [hid] at h
    exact UpdateOutcome.noConfusion h
  | some eid2 =>
    simp only [hid] at h
    split_ifs at h with h1 h2
    cases hscan : updateConflictScan
        (schedules.filter (fun sch => sch.id != some eid2)) e.teacherId e.room
        (timeToMinutes e.startTime) (timeToMinutes e.endTime) e.days with
    | some m =>
      simp only [hscan] at h
      exact UpdateOutcome.noConfusion h
    | none =>
      simp only [hscan, UpdateOutcome.persist.injEq] at h
      obtain ⟨rfl, -⟩ := h
      exact hscan

/-- C4 counterexample: a teacher-path update whose merged values collide
with another persisted session in the same room on the same day is
persisted anyway; re-running the conflict scan that the claim requires
(excluding the edited id) detects a room conflict on those very values. -/
theorem C4_counterexample :
    approveUpdateSchedule
      { id := some "x", subjectId := "SUB1", teacherId := "T1",
        room := "R1", days := ["Monday"], startTime := "08:30",
        endTime := "09:30", departmentId := "D1", createdAt := "t0",
        approved := none } =
      ApproveOutcome.persist "x"
        { subjectId := "SUB1", room := "R1", days := ["Monday"],
          startTime := "08:30", endTime := "09:30" } ∧
    updateConflictScan
      ([{ id := some "y", subjectId := "SUB2", teacherId := "T2",
          room := "R1", days := ["Monday"], startTime := "08:00",
          endTime := "09:00", departmentId := "D1", createdAt := "t0",
          approved := none },
        { id := some "x", subjectId := "SUB1", teacherId := "T1",
          room := "R1", days := ["Monday"], startTime := "08:30",
          endTime := "09:30", departmentId := "D1", createdAt := "t0",
          approved := none }].filter (fun sch => sch.id != some "x"))
      "T1" "R1" (timeToMinutes "08:30") (timeToMinutes "09:30") ["Monday"]
      = some Msg.warnRoomConflict := by
  exact ⟨by decide, by decide⟩

/-- Witness for C4 (amended): a concrete persisting update, whose conflict
re-validation indeed comes back empty. -/
theorem C4_witness :
    updateConflictScan
      ([{ id := some "x", subjectId := "SUB1", teacherId := "T1",
          room := "R1", days := ["Monday"], startTime := "08:00",
          endTime := "09:00", departmentId := "D1", createdAt := "t0",
          approved := none }].filter (fun sch => sch.id != some "x"))
      "T1" "R1" (timeToMinutes "08:00") (timeToMinutes "09:00") ["Monday"]
      = none :=
  C4_management_update_revalidates
    [{ id := some "x", subjectId := "SUB1", teacherId := "T1",
       room := "R1", days := ["Monday"], startTime := "08:00",
       endTime := "09:00", departmentId := "D1", createdAt := "t0",
       approved := none }]
    { id := some "x", subjectId := "SUB1", teacherId := "T1",
      room := "R1", days := ["Monday"], startTime := "08:00",
      endTime := "09:00", departmentId := "D1", createdAt := "t0",
      approved := none }
    "x"
    { subjectId := "SUB1", teacherId := "T1", room := "R1",
      days := ["Monday"], startTime := "08:00", endTime := "09:00" }
    (by decide)

/-- C9: a successful update writes only the submitted field map — six fields
on the schedule-management path, five on the approve path — so the stored
record's `departmentId`, `createdAt` (and `id`, `approved`; plus
`teacherId` on the approve path) are unchanged by the `updateDoc` merge. -/
theorem C9_update_preserves_department_and_createdAt :
    (∀ (schedules : List Schedule) (e : Schedule) (eid : String)
        (f : SchedUpdateFields) (old : Schedule),
      handleUpdateSchedule schedules e = UpdateOutcome.persist eid f →
        (applyScheduleUpdate f old).departmentId = old.departmentId ∧
        (applyScheduleUpdate f old).createdAt = old.createdAt ∧
        (applyScheduleUpdate f old).id = old.id ∧
        (applyScheduleUpdate f old).approved = old.approved) ∧
    (∀ (e : Schedule) (eid : String) (f : ApproveUpdateFields)
        (old : Schedule),
      approveUpdateSchedule e = ApproveOutcome.persist eid f →
        (applyApproveUpdate f old).departmentId = old.departmentId ∧
        (applyApproveUpdate f old).createdAt = old.createdAt ∧
        (applyApproveUpdate f old).id = old.id ∧
        (applyApproveUpdate f old).approved = old.approved ∧
        (applyApproveUpdate f old).teacherId = old.teacherId) := by
  constructor
  · intro _ _ _ f old _
    exact ⟨rfl, rfl, rfl, rfl⟩
  · intro _ _ f old _
    exact ⟨rfl, rfl, rfl, rfl, rfl⟩

/-- C10: the whole-candidate conflict check equals the disjunction of the
singleton-day checks; hence, when the whole-candidate check against a
snapshot passes, every per-day check against that same snapshot passes too,
and the skip branch of the per-day creation fan-out is never taken (on any
input at all, since the loop runs only after the whole-candidate check). -/
theorem C10_per_day_decomposition_skip_unreachable :
    (∀ (schedules : List Schedule) (c : NewSchedule) (D : List String),
      hasConflict schedules { c with days := D } =
        D.any (fun d => hasConflict schedules { c with days := [d] })) ∧
    (∀ (schedules : List Schedule) (c : NewSchedule),
      hasConflict schedules c = false →
      ∀ d ∈ c.days, hasConflict schedules { c with days := [d] } = false) ∧
    (∀ (schedules : List Schedule) (subjects : List SubjectData)
        (c : NewSchedule) (addOk : Nat → Bool) (createdAt : String)
        (day : String),
      Msg.warnDaySkipped day ∉
        (handleCreateSchedule schedules subjects c addOk createdAt).1) := by
  have hsing : ∀ (schedules : List Schedule) (c : NewSchedule),
      hasConflict schedules c = false →
      ∀ d ∈ c.days, hasConflict schedules { c with days := [d] } = false := by
    intro schedules c hfalse d hd
    rw [hasConflict_days_any] at hfalse
    exact Bool.eq_false_iff.mpr (List.any_eq_false.mp hfalse d hd)
  refine ⟨fun schedules c D => hasConflict_days_any schedules _, hsing, ?_⟩
  intro schedules subjects c addOk createdAt day
  unfold handleCreateSchedule
  split_ifs with h1 h2 h3
  · simp
  · simp
  · simp
  · cases hf : subjects.find? (fun s => s.id == c.subjectId) with
    | none => simp [hf]
    | some subj =>
      simp only [hf]
      have hfalse : hasConflict schedules c = false := Bool.eq_false_iff.mpr h3
      intro hmem
      rw [List.mem_append] at hmem
      rcases hmem with hmem | hmem
      · exact createDaysLoop_no_skip schedules c subj addOk createdAt c.days 0
          (hsing schedules c hfalse) day hmem
      · simp at hmem

/-- Witness for C10: a two-day candidate passing the whole-candidate check
against an empty snapshot, whose Monday singleton check passes too. -/
theorem C10_witness :
    hasConflict []
      { subjectId := "SUB1", teacherId := "T1", room := "R1",
        days := ["Monday"], startTime := "08:00", endTime := "09:00" }
      = false :=
  C10_per_day_decomposition_skip_unreachable.2.1 []
    { subjectId := "SUB1", teacherId := "T1", room := "R1",
      days := ["Monday", "Wednesday"], startTime := "08:00",
      endTime := "09:00" }
    (by decide) "Monday" (by decide)

/-- C2 counterexample: the materializer reads the wall clock — there is no
supplied reference week start — so the very same session yields different
occurrence lists at clock instants lying in different ISO weeks. -/
theorem C2_counterexample :
    ((getEventsFromSchedule 0
        { id := some "x", subjectId := "SUB1", teacherId := "T1",
          room := "R1", days := ["Monday"], startTime := "08:00",
          endTime := "09:00", departmentId := "D1", createdAt := "t0",
          approved := none }).map CalEvent.start = [480]) ∧
    ((getEventsFromSchedule 10080
        { id := some "x", subjectId := "SUB1", teacherId := "T1",
          room := "R1", days := ["Monday"], startTime := "08:00",
          endTime := "09:00", departmentId := "D1", createdAt := "t0",
          approved := none }).map CalEvent.start = [10560]) ∧
    getEventsFromSchedule 0
      { id := some "x", subjectId := "SUB1", teacherId := "T1",
        room := "R1", days := ["Monday"], startTime := "08:00",
        endTime := "09:00", departmentId := "D1", createdAt := "t0",
        approved := none } ≠
    getEventsFromSchedule 10080
      { id := some "x", subjectId := "SUB1", teacherId := "T1",
        room := "R1", days := ["Monday"], startTime := "08:00",
        endTime := "09:00", departmentId := "D1", createdAt := "t0",
        approved := none } := by
  exact ⟨by decide, by decide, by decide⟩

/-- C2 (amended): with the clock made explicit, materialization is a pure
function of the session and the clock-derived week start — any two calls
whose clock readings fall in the same ISO week (in particular, two calls at
the same instant) yield identical occurrence lists. -/
theorem C2_materialization_week_determinism :
    ∀ (now1 now2 : Nat) (sch : Schedule),
      now1 / 10080 = now2 / 10080 →
      getEventsFromSchedule now1 sch = getEventsFromSchedule now2 sch := by
  intro n1 n2 sch h
  unfold getEventsFromSchedule weekStartOf
  rw [h]

/-- Witness for C2 (amended): two nearby clock instants in the same week. -/
theorem C2_witness :
    getEventsFromSchedule 5
      { id := some "x", subjectId := "SUB1", teacherId := "T1",
        room := "R1", days := ["Monday"], startTime := "08:00",
        endTime := "09:00", departmentId := "D1", createdAt := "t0",
        approved := none } =
    getEventsFromSchedule 7
      { id := some "x", subjectId := "SUB1", teacherId := "T1",
        room := "R1", days := ["Monday"], startTime := "08:00",
        endTime := "09:00", departmentId := "D1", createdAt := "t0",
        approved := none } :=
  C2_materialization_week_determinism 5 7 _ (by decide)

/-- C5 counterexample: occurrences are emitted in the stored order of the
session's day array, not in Monday-first canonical order — a session stored
as Wednesday-then-Monday materializes its Wednesday occurrence first
(starts `[3360, 480]` rather than the canonical `[480, 3360]`). -/
theorem C5_counterexample :
    ((getEventsFromSchedule 0
        { id := some "x", subjectId := "SUB1", teacherId := "T1",
          room := "R1", days := ["Wednesday", "Monday"],
          startTime := "08:00", endTime := "09:00", departmentId := "D1",
          createdAt := "t0", approved := none }).map CalEvent.start
      = [3360, 480]) ∧
    (getEventsFromSchedule 0
        { id := some "x", subjectId := "SUB1", teacherId := "T1",
          room := "R1", days := ["Wednesday", "Monday"],
          startTime := "08:00", endTime := "09:00", departmentId := "D1",
          createdAt := "t0", approved := none }).map CalEvent.start
      ≠ [480, 3360] := by
  exact ⟨by decide, by decide⟩

/-- C5 (amended): materialization yields exactly one occurrence per stored
day tag, in the session's stored day order; each occurrence carries the
session's id and sits at the week start plus 1440 minutes per zero-based
Monday-based day index (the index is 0-6 for valid day tags) plus the
session's start/end minutes. -/
theorem C5_materialization_shape :
    ∀ (now : Nat) (sch : Schedule),
      (∀ d ∈ sch.days, d ∈ daysOfWeek) →
      (splitColon sch.startTime).length = 2 →
      (splitColon sch.endTime).length = 2 →
      (getEventsFromSchedule now sch).length = sch.days.length ∧
      (∀ e ∈ getEventsFromSchedule now sch, e.id = sch.id) ∧
      ((getEventsFromSchedule now sch).map CalEvent.start =
        sch.days.map (fun day =>
          weekStartOf now + indexOfJS daysOfWeek day * 1440 +
            (timeToMinutes sch.startTime : Int))) ∧
      ((getEventsFromSchedule now sch).map (fun e => e.«end») =
        sch.days.map (fun day =>
          weekStartOf now + indexOfJS daysOfWeek day * 1440 +
            (timeToMinutes sch.endTime : Int))) ∧
      (∀ d ∈ sch.days,
        (0 : Int) ≤ indexOfJS daysOfWeek d ∧ indexOfJS daysOfWeek d ≤ 6) := by
  intro now sch hdays hs he
  refine ⟨?_, ?_, ?_, ?_, ?_⟩
  · simp [getEventsFromSchedule]
  · intro e hmem
    simp only [getEventsFromSchedule, List.mem_map] at hmem
    obtain ⟨day, -, rfl⟩ := hmem
    rfl
  · unfold getEventsFromSchedule
    rw [List.map_map]
    refine List.map_congr_left (fun day _ => ?_)
    show weekStartOf now + indexOfJS daysOfWeek day * 1440 +
        ((parsePart sch.startTime 0 * 60 + parsePart sch.startTime 1 : Nat) : Int)
      = _
    rw [parsePart_eq_timeToMinutes sch.startTime hs]
  · unfold getEventsFromSchedule
    rw [List.map_map]
    refine List.map_congr_left (fun day _ => ?_)
    show weekStartOf now + indexOfJS daysOfWeek day * 1440 +
        ((parsePart sch.endTime 0 * 60 + parsePart sch.endTime 1 : Nat) : Int)
      = _
    rw [parsePart_eq_timeToMinutes sch.endTime he]
  · intro d hd
    have hmem := hdays d hd
    simp only [daysOfWeek, List.mem_cons, List.not_mem_nil, or_false] at hmem
    rcases hmem with rfl | rfl | rfl | rfl | rfl | rfl | rfl <;> decide

/-- Witness for C5 (amended), Scenario D shape: days Tuesday and Thursday,
13:00-14:30, materialized in the week of clock instant 0. -/
theorem C5_witness :
    (getEventsFromSchedule 0
      { id := some "x", subjectId := "SUB1", teacherId := "T1",
        room := "R1", days := ["Tuesday", "Thursday"],
        startTime := "13:00", endTime := "14:30", departmentId := "D1",
        createdAt := "t0", approved := none }).length = 2 ∧
    (∀ e ∈ getEventsFromSchedule 0
      { id := some "x", subjectId := "SUB1", teacherId := "T1",
        room := "R1", days := ["Tuesday", "Thursday"],
        startTime := "13:00", endTime := "14:30", departmentId := "D1",
        createdAt := "t0", approved := none }, e.id = some "x") ∧
    ((getEventsFromSchedule 0
      { id := some "x", subjectId := "SUB1", teacherId := "T1",
        room := "R1", days := ["Tuesday", "Thursday"],
        startTime := "13:00", endTime := "14:30", departmentId := "D1",
        createdAt := "t0", approved := none }).map CalEvent.start
      = [2220, 5100]) ∧
    ((getEventsFromSchedule 0
      { id := some "x", subjectId := "SUB1", teacherId := "T1",
        room := "R1", days := ["Tuesday", "Thursday"],
        startTime := "13:00", endTime := "14:30", departmentId := "D1",
        createdAt := "t0", approved := none }).map (fun e => e.«end»)
      = [2310, 5190]) ∧
    (∀ d ∈ (["Tuesday", "Thursday"] : List String),
      (0 : Int) ≤ indexOfJS daysOfWeek d ∧ indexOfJS daysOfWeek d ≤ 6) :=
  C5_materialization_shape 0
    { id := some "x", subjectId := "SUB1", teacherId := "T1",
      room := "R1", days := ["Tuesday", "Thursday"],
      startTime := "13:00", endTime := "14:30", departmentId := "D1",
      createdAt := "t0", approved := none }
    (by decide) (by decide) (by decide)

/-- C3: evaluation at the failing input.  A two-day request (Monday,
Wednesday) passes validation against an empty snapshot; the storage write
for Monday fails and Wednesday's succeeds, yet the flow ends with the
single blanket success alert — the final reported outcome does not reflect
that only one of the two requested days was persisted. -/
theorem C3_collapsed_success_on_partial_failure :
    ((handleCreateSchedule []
        [{ id := "SUB1", subjectCode := "C1", subjectName := "N1",
           departmentId := "D1" }]
        { subjectId := "SUB1", teacherId := "T1", room := "R1",
          days := ["Monday", "Wednesday"], startTime := "08:00",
          endTime := "09:00" }
        (fun k => decide (k ≠ 0)) "t0").1
      = [Msg.errAddFailed "Monday", Msg.successAdded]) ∧
    ((handleCreateSchedule []
        [{ id := "SUB1", subjectCode := "C1", subjectName := "N1",
           departmentId := "D1" }]
        { subjectId := "SUB1", teacherId := "T1", room := "R1",
          days := ["Monday", "Wednesday"], startTime := "08:00",
          endTime := "09:00" }
        (fun k => decide (k ≠ 0)) "t0").2.map (fun sch => sch.days)
      = [["Wednesday"]]) := by
  exact ⟨by decide, by decide⟩

/-- Witness for C9: both update paths persisting concrete field maps, merged
into a stored record whose `departmentId`, `createdAt`, `id` and `approved`
are untouched (and whose `teacherId` survives the approve-path merge). -/
theorem C9_witness :
    ((applyScheduleUpdate
        { subjectId := "SUB1", teacherId := "T1", room := "R1",
          days := ["Monday"], startTime := "08:00", endTime := "09:00" }
        { id := some "o", subjectId := "OS", teacherId := "OT",
          room := "OR", days := ["Friday"], startTime := "10:00",
          endTime := "11:00", departmentId := "D9", createdAt := "t9",
          approved := some true }).departmentId = "D9" ∧
     (applyScheduleUpdate
        { subjectId := "SUB1", teacherId := "T1", room := "R1",
          days := ["Monday"], startTime := "08:00", endTime := "09:00" }
        { id := some "o", subjectId := "OS", teacherId := "OT",
          room := "OR", days := ["Friday"], startTime := "10:00",
          endTime := "11:00", departmentId := "D9", createdAt := "t9",
          approved := some true }).createdAt = "t9" ∧
     (applyScheduleUpdate
        { subjectId := "SUB1", teacherId := "T1", room := "R1",
          days := ["Monday"], startTime := "08:00", endTime := "09:00" }
        { id := some "o", subjectId := "OS", teacherId := "OT",
          room := "OR", days := ["Friday"], startTime := "10:00",
          endTime := "11:00", departmentId := "D9", createdAt := "t9",
          approved := some true }).id = some "o" ∧
     (applyScheduleUpdate
        { subjectId := "SUB1", teacherId := "T1", room := "R1",
          days := ["Monday"], startTime := "08:00", endTime := "09:00" }
        { id := some "o", subjectId := "OS", teacherId := "OT",
          room := "OR", days := ["Friday"], startTime := "10:00",
          endTime := "11:00", departmentId := "D9", createdAt := "t9",
          approved := some true }).approved = some true) ∧
    ((applyApproveUpdate
        { subjectId := "SUB1", room := "R1", days := ["Monday"],
          startTime := "08:00", endTime := "09:00" }
        { id := some "o", subjectId := "OS", teacherId := "OT",
          room := "OR", days := ["Friday"], startTime := "10:00",
          endTime := "11:00", departmentId := "D9", createdAt := "t9",
          approved := some true }).departmentId = "D9" ∧
     (applyApproveUpdate
        { subjectId := "SUB1", room := "R1", days := ["Monday"],
          startTime := "08:00", endTime := "09:00" }
        { id := some "o", subjectId := "OS", teacherId := "OT",
          room := "OR", days := ["Friday"], startTime := "10:00",
          endTime := "11:00", departmentId := "D9", createdAt := "t9",
          approved := some true }).createdAt = "t9" ∧
     (applyApproveUpdate
        { subjectId := "SUB1", room := "R1", days := ["Monday"],
          startTime := "08:00", endTime := "09:00" }
        { id := some "o", subjectId := "OS", teacherId := "OT",
          room := "OR", days := ["Friday"], startTime := "10:00",
          endTime := "11:00", departmentId := "D9", createdAt := "t9",
          approved := some true }).id = some "o" ∧
     (applyApproveUpdate
        { subjectId := "SUB1", room := "R1", days := ["Monday"],
          startTime := "08:00", endTime := "09:00" }
        { id := some "o", subjectId := "OS", teacherId := "OT",
          room := "OR", days := ["Friday"], startTime := "10:00",
          endTime := "11:00", departmentId := "D9", createdAt := "t9",
          approved := some true }).approved = some true ∧
     (applyApproveUpdate
        { subjectId := "SUB1", room := "R1", days := ["Monday"],
          startTime := "08:00", endTime := "09:00" }
        { id := some "o", subjectId := "OS", teacherId := "OT",
          room := "OR", days := ["Friday"], startTime := "10:00",
          endTime := "11:00", departmentId := "D9", createdAt := "t9",
          approved := some true }).teacherId = "OT") :=
  ⟨C9_update_preserves_department_and_createdAt.1
      [{ id := some "x", subjectId := "SUB1", teacherId := "T1",
         room := "R1", days := ["Monday"], startTime := "08:00",
         endTime := "09:00", departmentId := "D1", createdAt := "t0",
         approved := none }]
      { id := some "x", subjectId := "SUB1", teacherId := "T1",
        room := "R1", days := ["Monday"], startTime := "08:00",
        endTime := "09:00", departmentId := "D1", createdAt := "t0",
        approved := none }
      "x"
      { subjectId := "SUB1", teacherId := "T1", room := "R1",
        days := ["Monday"], startTime := "08:00", endTime := "09:00" }
      { id := some "o", subjectId := "OS", teacherId := "OT",
        room := "OR", days := ["Friday"], startTime := "10:00",
        endTime := "11:00", departmentId := "D9", createdAt := "t9",
        approved := some true }
      (by decide),
   C9_update_preserves_department_and_createdAt.2
      { id := some "x", subjectId := "SUB1", teacherId := "T1",
        room := "R1", days := ["Monday"], startTime := "08:00",
        endTime := "09:00", departmentId := "D1", createdAt := "t0",
        approved := none }
      "x"
      { subjectId := "SUB1", room := "R1", days := ["Monday"],
        startTime := "08:00", endTime := "09:00" }
      { id := some "o", subjectId := "OS", teacherId := "OT",
        room := "OR", days := ["Friday"], startTime := "10:00",
        endTime := "11:00", departmentId := "D9", createdAt := "t9",
        approved := some true }
      (by decide)⟩
